import Mathlib

/-
  Shallow embedding of the multi-store todo coordinator in
  src/todo-api/index.js: the three Express handlers
  (GET /api/v1/todos, POST /api/v1/todos, POST /api/v1/search)
  over the three stores (Postgres table `todo`, Redis set "todos",
  Elasticsearch index "todos"), with explicit fault injection for
  the store round trips so that the try/catch control flow of the
  handlers is modelled faithfully.
-/

namespace TodoApi

/-- The joint state of the three stores.
  `db` is the Postgres `todo` table's `title` column in insertion order
  (ids are serial, so insertion order is id order);
  `cache` is the Redis set "todos", modelled as a duplicate-free list in
  first-insertion order;
  `index` is the Elasticsearch "todos" index: the list of `todotext`
  fields of the indexed documents, in indexing order. -/
structure State where
  db : List String
  cache : List String
  index : List String
deriving DecidableEq, Repr

/-- Redis SADD on the "todos" set: add the title if absent (set semantics). -/
def sAdd (cache : List String) (t : String) : List String :=
  if t ∈ cache then cache else cache ++ [t]

/-- The backfill loop of the GET handler (index.js lines 111-116):
  one `await redisClient.sAdd("todos", todo.title)` per row, sequentially.
  `fs` is the fault schedule, one flag per sAdd call (a missing flag means
  no fault). A faulting call throws: the write does not happen, the loop is
  abandoned, and control transfers to the surrounding catch.
  Returns the cache contents after the loop together with `true` when the
  loop ran to completion, `false` when some call threw. -/
def backfill : List String → List String → List Bool → List String × Bool
  | cache, [], _ => (cache, true)
  | cache, t :: ts, [] => backfill (sAdd cache t) ts []
  | cache, t :: ts, f :: fs =>
    if f then (cache, false) else backfill (sAdd cache t) ts fs

/-- Outcome of GET /api/v1/todos: either a 200 with the `{title}`
  projections (represented by their title strings), or the catch-all
  500 `{error: "Failed to fetch todos"}` (the StoreUnavailable of the
  design). -/
inductive ListResult
  | ok (todos : List String)
  | fetchFailed
deriving DecidableEq, Repr

/-- Fault schedule for one GET /api/v1/todos request: whether
  `redisClient.sMembers` throws, whether the Postgres SELECT throws, and
  the per-call fault flags for the backfill sAdd loop. -/
structure ListFaults where
  cacheRead : Bool
  dbRead : Bool
  cacheWrites : List Bool
deriving DecidableEq, Repr

/-- The fault-free schedule for a GET request. -/
def ListFaults.noFault : ListFaults := ⟨false, false, []⟩

/-- What one GET /api/v1/todos request produced: the HTTP outcome, the
  store state afterwards, and whether the Postgres SELECT was issued
  (for the call-count assertion of property P1). -/
structure ListOutcome where
  result : ListResult
  state : State
  dbQueried : Bool
deriving DecidableEq, Repr

/-- GET /api/v1/todos (index.js lines 91-123).
  Reads the Redis set; a throw there is caught and answered with the 500.
  A non-empty cache is returned at once, Postgres untouched.
  Otherwise the Postgres SELECT runs (a throw is caught, 500); its rows
  are written back to the cache one sAdd at a time inside the same try,
  so a throw in the loop is also caught and answered with the 500, and
  `res.send(todos)` runs only after the whole loop completed. -/
def getTodos (s : State) (f : ListFaults) : ListOutcome :=
  if f.cacheRead then ⟨ListResult.fetchFailed, s, false⟩
  else if s.cache ≠ [] then ⟨ListResult.ok s.cache, s, false⟩
  else if f.dbRead then ⟨ListResult.fetchFailed, s, true⟩
  else if (backfill s.cache s.db f.cacheWrites).snd then
    ⟨ListResult.ok s.db, { s with cache := (backfill s.cache s.db f.cacheWrites).fst }, true⟩
  else
    ⟨ListResult.fetchFailed, { s with cache := (backfill s.cache s.db f.cacheWrites).fst }, true⟩

/-- Outcome of POST /api/v1/todos: either the 201 echoing the request body
  (whose `title` field is carried here), or the catch-all 500
  `{error: "Failed to create todo"}` (the CreateFailed of the design). -/
inductive CreateResult
  | created (title : Option String)
  | createFailed
deriving DecidableEq, Repr

/-- Fault schedule for one POST /api/v1/todos request: a connection-level
  throw of the Postgres INSERT (beyond its constraint violations, which the
  state itself determines), of the Redis sAdd, and of the Elasticsearch
  index call. -/
structure CreateFaults where
  dbWrite : Bool
  cacheWrite : Bool
  indexWrite : Bool
deriving DecidableEq, Repr

/-- The fault-free schedule for a POST /api/v1/todos request. -/
def CreateFaults.noFault : CreateFaults := ⟨false, false, false⟩

/-- POST /api/v1/todos (index.js lines 126-153).
  `title` is `req.body.title`, `Option.none` standing for a missing/null
  field. The INSERT throws on a connection fault, on NULL (the column is
  NOT NULL) and on a duplicate (the column is UNIQUE), per the table
  definition at index.js line 36; any throw lands in the catch and answers
  the 500. The Redis sAdd and the Elasticsearch index call sit inside the
  same try after the INSERT, so a throw of either also lands in the catch
  and answers the 500 — with the already-committed INSERT kept. The 201
  with the request body is sent only after all three calls succeeded. -/
def createTodo (s : State) (title : Option String) (f : CreateFaults) :
    CreateResult × State :=
  if f.dbWrite then (CreateResult.createFailed, s)
  else
    match title with
    | Option.none => (CreateResult.createFailed, s)
    | Option.some t =>
      if t ∈ s.db then (CreateResult.createFailed, s)
      else
        if f.cacheWrite then
          (CreateResult.createFailed, { s with db := s.db ++ [t] })
        else
          if f.indexWrite then
            (CreateResult.createFailed,
              { s with db := s.db ++ [t], cache := sAdd s.cache t })
          else
            (CreateResult.created (Option.some t),
              { s with db := s.db ++ [t], cache := sAdd s.cache t,
                       index := s.index ++ [t] })

/-- POST /api/v1/search (index.js lines 156-175).
  `matchFn` stands for the Elasticsearch engine's match query over the
  `todotext` field (relevance scoring lives in the engine, outside this
  repository): it maps the index contents and the search text to the hit
  list. A throw anywhere in the query is caught and answered with
  `res.send([])` — a 200 with the empty list, never an error status. -/
def searchTodos (matchFn : List String → String → List String)
    (s : State) (txt : String) (fault : Bool) : List String × State :=
  if fault then ([], s) else (matchFn s.index txt, s)

/-- One inbound request to the coordinator, with its fault schedule. -/
inductive Op
  | list (f : ListFaults)
  | create (title : Option String) (f : CreateFaults)
  | search (matchFn : List String → String → List String)
      (txt : String) (fault : Bool)

/-- The state after serving one request. -/
def runOp (s : State) : Op → State
  | Op.list f => (getTodos s f).state
  | Op.create t f => (createTodo s t f).snd
  | Op.search matchFn txt fault => (searchTodos matchFn s txt fault).snd

/-- The state after serving a sequence of requests. -/
def runOps (s : State) (ops : List Op) : State := ops.foldl runOp s

/-! ### Helper lemmas -/

/-- sAdd keeps every member that was already in the set. -/
theorem mem_sAdd_of_mem {x : String} {c : List String} (t : String)
    (h : x ∈ c) : x ∈ sAdd c t := by
  unfold sAdd
  split <;> simp [h]

/-- sAdd puts its argument in the set. -/
theorem self_mem_sAdd (c : List String) (t : String) : t ∈ sAdd c t := by
  unfold sAdd
  split <;> simp_all

/-- The backfill loop never removes a cache member, whatever the fault
  schedule. -/
theorem backfill_cache_mono (ts : List String) (fs : List Bool)
    (cache : List String) {x : String} (h : x ∈ cache) :
    x ∈ (backfill cache ts fs).fst := by
  induction ts generalizing cache fs with
  | nil => simpa [backfill] using h
  | cons t ts ih =>
    cases fs with
    | nil => exact ih [] (sAdd cache t) (mem_sAdd_of_mem t h)
    | cons f fs =>
      by_cases hf : f
      · simpa [backfill, hf] using h
      · simpa [backfill, hf] using ih fs (sAdd cache t) (mem_sAdd_of_mem t h)

/-- With an empty fault schedule the backfill loop completes and every
  title it was given ends up in the cache. -/
theorem backfill_noFault (ts : List String) (cache : List String) :
    (backfill cache ts []).snd = true ∧
      ∀ t ∈ ts, t ∈ (backfill cache ts []).fst := by
  induction ts generalizing cache with
  | nil => simp [backfill]
  | cons t ts ih =>
    refine ⟨by simpa [backfill] using (ih (sAdd cache t)).1, ?_⟩
    intro u hu
    rcases List.mem_cons.mp hu with hu | hu
    · rw [hu]
      simpa [backfill] using
        backfill_cache_mono ts [] (sAdd cache t) (self_mem_sAdd cache t)
    · simpa [backfill] using (ih (sAdd cache t)).2 u hu

/-- A fault at position `k` of the schedule (the first `k` calls clean)
  stops the backfill loop right there: only the first `k` titles were
  added, and the loop reports failure. -/
theorem backfill_fault (ts : List String) (k : Nat) (rest : List Bool)
    (cache : List String) (hk : k < ts.length) :
    backfill cache ts (List.replicate k false ++ true :: rest) =
      ((ts.take k).foldl sAdd cache, false) := by
  induction k generalizing cache ts with
  | zero =>
    cases ts with
    | nil => simp at hk
    | cons t ts => simp [backfill]
  | succ n ih =>
    cases ts with
    | nil => simp at hk
    | cons t ts =>
      have hn : n < ts.length := by simpa using Nat.lt_of_succ_lt_succ hk
      simpa [backfill, List.replicate] using ih ts (sAdd cache t) hn

/-! ### Claim theorems -/

/-- C3: for every state in which the cache's title set is non-empty (and
  the cache read itself does not throw), the list operation returns exactly
  the cached titles, leaves the state unchanged, and issues no query to the
  durable store. -/
theorem C3_cache_short_circuit (s : State) (f : ListFaults)
    (h1 : f.cacheRead = false) (h2 : s.cache ≠ []) :
    getTodos s f = ⟨ListResult.ok s.cache, s, false⟩ := by
  unfold getTodos
  simp [h1, h2]

/-- Witness for C3 at a concrete non-empty cache. -/
theorem C3_witness :
    getTodos ⟨["a"], ["b"], []⟩ ⟨false, false, []⟩ =
      ⟨ListResult.ok ["b"], ⟨["a"], ["b"], []⟩, false⟩ :=
  C3_cache_short_circuit ⟨["a"], ["b"], []⟩ ⟨false, false, []⟩ rfl (by decide)

/-- C7: when the cache read signals a hard connection failure, the list
  operation fails with the fetch error (the StoreUnavailable of the
  design), queries no durable data, and changes no store. -/
theorem C7_cache_hard_failure (s : State) (f : ListFaults)
    (h : f.cacheRead = true) :
    getTodos s f = ⟨ListResult.fetchFailed, s, false⟩ := by
  unfold getTodos
  simp [h]

/-- Witness for C7 at a concrete state with a cache-read fault. -/
theorem C7_witness :
    getTodos ⟨["a"], ["b"], ["c"]⟩ ⟨true, false, []⟩ =
      ⟨ListResult.fetchFailed, ⟨["a"], ["b"], ["c"]⟩, false⟩ :=
  C7_cache_hard_failure ⟨["a"], ["b"], ["c"]⟩ ⟨true, false, []⟩ rfl

/-- C5: for every search input and every state, if the index query fails
  the search operation answers the empty hit list (a 200, never an error)
  and changes no store. -/
theorem C5_search_fail_soft (matchFn : List String → String → List String)
    (s : State) (txt : String) :
    searchTodos matchFn s txt true = ([], s) := rfl

/-- C4: whenever the durable insert fails — a connection fault, a NULL
  title, or a duplicate-title uniqueness violation — the create operation
  reports the create error and leaves every store (db, cache, index)
  unchanged. -/
theorem C4_insert_failure_aborts (s : State) (title : Option String)
    (f : CreateFaults)
    (h : f.dbWrite = true ∨ title = Option.none ∨
      ∃ t, title = Option.some t ∧ t ∈ s.db) :
    createTodo s title f = (CreateResult.createFailed, s) := by
  unfold createTodo
  rcases h with h | h | ⟨t, ht, hmem⟩
  · simp [h]
  · subst h
    split <;> simp
  · subst ht
    by_cases hdb : f.dbWrite <;> simp [hdb, hmem]

/-- Witness for C4: inserting a duplicate title fails and mutates
  nothing. -/
theorem C4_witness :
    createTodo ⟨["x"], [], []⟩ (Option.some "x") ⟨false, false, false⟩ =
      (CreateResult.createFailed, ⟨["x"], [], []⟩) :=
  C4_insert_failure_aborts ⟨["x"], [], []⟩ (Option.some "x")
    ⟨false, false, false⟩ (Or.inr (Or.inr ⟨"x", rfl, by decide⟩))

/-- C10: the coordinator validates nothing: an empty-string title passes
  the column constraints (UNIQUE NOT NULL admits ""), so its create
  succeeds and "" is written to db, cache and index; a missing/null title
  is rejected by NOT NULL and reported as a create failure with no store
  change. -/
theorem C10_no_title_validation (s : State) (h : "" ∉ s.db) :
    (createTodo s (Option.some "") CreateFaults.noFault).fst =
      CreateResult.created (Option.some "") ∧
    (createTodo s (Option.some "") CreateFaults.noFault).snd.db =
      s.db ++ [""] ∧
    "" ∈ (createTodo s (Option.some "") CreateFaults.noFault).snd.cache ∧
    (createTodo s (Option.some "") CreateFaults.noFault).snd.index =
      s.index ++ [""] ∧
    createTodo s Option.none CreateFaults.noFault =
      (CreateResult.createFailed, s) := by
  unfold createTodo CreateFaults.noFault
  simp [h, self_mem_sAdd]

/-- Witness for C10 at the empty state. -/
theorem C10_witness :
    (createTodo ⟨[], [], []⟩ (Option.some "") CreateFaults.noFault).fst =
      CreateResult.created (Option.some "") ∧
    (createTodo ⟨[], [], []⟩ (Option.some "") CreateFaults.noFault).snd.db =
      [] ++ [""] ∧
    "" ∈ (createTodo ⟨[], [], []⟩ (Option.some "") CreateFaults.noFault).snd.cache ∧
    (createTodo ⟨[], [], []⟩ (Option.some "") CreateFaults.noFault).snd.index =
      [] ++ [""] ∧
    createTodo ⟨[], [], []⟩ Option.none CreateFaults.noFault =
      (CreateResult.createFailed, ⟨[], [], []⟩) :=
  C10_no_title_validation ⟨[], [], []⟩ (by decide)

/-- C1 counterexample: with title "y" the durable insert succeeds (the db
  ends up holding "y") but the cache write throws, and the create reports
  the 500 create error rather than success — refuting the claim that
  accelerator write failures after the durable commit are never surfaced. -/
theorem C1_counterexample :
    (createTodo ⟨[], [], []⟩ (Option.some "y") ⟨false, true, false⟩).snd.db =
      ["y"] ∧
    (createTodo ⟨[], [], []⟩ (Option.some "y") ⟨false, true, false⟩).fst ≠
      CreateResult.created (Option.some "y") := by
  decide

/-- C1 (amended): after a successful durable insert the create reports
  success exactly when the cache write and the index write both succeed;
  a failing accelerator write is surfaced as a create failure, although
  the durable insert stays committed. -/
theorem C1_accelerator_fault_surfaces (s : State) (t : String)
    (f : CreateFaults) (h1 : f.dbWrite = false) (h2 : t ∉ s.db) :
    ((createTodo s (Option.some t) f).fst =
        CreateResult.created (Option.some t) ↔
      f.cacheWrite = false ∧ f.indexWrite = false) ∧
    (createTodo s (Option.some t) f).snd.db = s.db ++ [t] := by
  unfold createTodo
  by_cases hc : f.cacheWrite <;> by_cases hi : f.indexWrite <;>
    simp [h1, h2, hc, hi]

/-- Witness for the amended C1 at a concrete cache-write fault. -/
theorem C1_witness :
    ((createTodo ⟨[], [], []⟩ (Option.some "w") ⟨false, true, false⟩).fst =
        CreateResult.created (Option.some "w") ↔
      (⟨false, true, false⟩ : CreateFaults).cacheWrite = false ∧
      (⟨false, true, false⟩ : CreateFaults).indexWrite = false) ∧
    (createTodo ⟨[], [], []⟩ (Option.some "w") ⟨false, true, false⟩).snd.db =
      [] ++ ["w"] :=
  C1_accelerator_fault_surfaces ⟨[], [], []⟩ "w" ⟨false, true, false⟩ rfl
    (by decide)

/-- C9 counterexample: the durable insert of "z" commits (the db ends up
  holding "z") but the index write throws, and the operation answers the
  500 create error instead of returning the accepted title. -/
theorem C9_counterexample :
    (createTodo ⟨[], [], []⟩ (Option.some "z") ⟨false, false, true⟩).snd.db =
      ["z"] ∧
    (createTodo ⟨[], [], []⟩ (Option.some "z") ⟨false, false, true⟩).fst ≠
      CreateResult.created (Option.some "z") := by
  decide

/-- C9 (amended): for every create request whose durable insert commits
  and whose cache and index writes also succeed, the operation returns the
  accepted title (echoed from the request body) as its success result. -/
theorem C9_success_returns_title (s : State) (t : String) (h : t ∉ s.db) :
    (createTodo s (Option.some t) CreateFaults.noFault).fst =
      CreateResult.created (Option.some t) := by
  unfold createTodo CreateFaults.noFault
  simp [h]

/-- Witness for the amended C9 at a concrete fresh title. -/
theorem C9_witness :
    (createTodo ⟨["a"], [], []⟩ (Option.some "b") CreateFaults.noFault).fst =
      CreateResult.created (Option.some "b") :=
  C9_success_returns_title ⟨["a"], [], []⟩ "b" (by decide)

/-- C2 counterexample: cold cache, durable store holds "a" and "b", and
  the cache write for the first backfilled title throws: the operation
  answers the 500 fetch error instead of the durable-store result, and the
  remaining title "b" is never written to the cache (the cache stays
  empty) — refuting both independence of the backfill writes and the
  unconditional return of the durable result. -/
theorem C2_counterexample :
    (getTodos ⟨["a", "b"], [], []⟩ ⟨false, false, [true]⟩).result =
      ListResult.fetchFailed ∧
    (getTodos ⟨["a", "b"], [], []⟩ ⟨false, false, [true]⟩).state.cache =
      [] := by
  decide

/-- C2 (amended): during cold-cache backfill the coordinator writes each
  title to the cache one at a time, but a failure of one title's cache
  write aborts the remaining writes — exactly the titles before the
  faulting one are cached — and the whole operation reports the fetch
  error instead of the durable-store result. -/
theorem C2_backfill_fault_aborts (s : State) (k : Nat) (rest : List Bool)
    (h1 : s.cache = []) (h2 : k < s.db.length) :
    (getTodos s ⟨false, false, List.replicate k false ++ true :: rest⟩).result =
      ListResult.fetchFailed ∧
    (getTodos s ⟨false, false, List.replicate k false ++ true :: rest⟩).state.cache =
      (s.db.take k).foldl sAdd [] := by
  unfold getTodos
  rw [h1]
  simp [backfill_fault s.db k rest [] h2]

/-- Witness for the amended C2: three titles, fault on the second write. -/
theorem C2_witness :
    (getTodos ⟨["a", "b", "c"], [], []⟩
        ⟨false, false, List.replicate 1 false ++ true :: []⟩).result =
      ListResult.fetchFailed ∧
    (getTodos ⟨["a", "b", "c"], [], []⟩
        ⟨false, false, List.replicate 1 false ++ true :: []⟩).state.cache =
      ((["a", "b", "c"] : List String).take 1).foldl sAdd [] :=
  C2_backfill_fault_aborts ⟨["a", "b", "c"], [], []⟩ 1 [] rfl (by decide)

/-- C6: from an empty cache with no faults, the list operation returns the
  titles of all durable-store items, and afterwards every one of those
  titles is in the cache. -/
theorem C6_cold_cache_backfill (s : State) (h : s.cache = []) :
    (getTodos s ListFaults.noFault).result = ListResult.ok s.db ∧
    ∀ t ∈ s.db, t ∈ (getTodos s ListFaults.noFault).state.cache := by
  unfold getTodos ListFaults.noFault
  rw [h]
  refine ⟨by simp [(backfill_noFault s.db []).1], ?_⟩
  intro t ht
  simp [(backfill_noFault s.db []).1]
  exact (backfill_noFault s.db []).2 t ht

/-- Witness for C6 at the P2 state: durable store holding "buy milk" and
  "walk dog", empty cache. -/
theorem C6_witness :
    (getTodos ⟨["buy milk", "walk dog"], [], []⟩ ListFaults.noFault).result =
      ListResult.ok ["buy milk", "walk dog"] ∧
    "walk dog" ∈
      (getTodos ⟨["buy milk", "walk dog"], [], []⟩
        ListFaults.noFault).state.cache :=
  ⟨(C6_cold_cache_backfill ⟨["buy milk", "walk dog"], [], []⟩ rfl).1,
   (C6_cold_cache_backfill ⟨["buy milk", "walk dog"], [], []⟩ rfl).2
     "walk dog" (by decide)⟩

/-! ### Monotonicity of the stores across operations -/

/-- The list operation never removes a cache member, whatever the faults. -/
theorem getTodos_cache_mono (s : State) (f : ListFaults) {x : String}
    (h : x ∈ s.cache) : x ∈ (getTodos s f).state.cache := by
  by_cases h2 : s.cache = []
  · rw [h2] at h
    simp at h
  · unfold getTodos
    by_cases h1 : f.cacheRead <;> simp [h1, h2, h]

/-- The list operation never touches the search index. -/
theorem getTodos_index_eq (s : State) (f : ListFaults) :
    (getTodos s f).state.index = s.index := by
  unfold getTodos
  split
  · rfl
  split
  · rfl
  split
  · rfl
  split <;> rfl

/-- The create operation never removes a cache member, whatever the
  faults or the title. -/
theorem createTodo_cache_mono (s : State) (title : Option String)
    (f : CreateFaults) {x : String} (h : x ∈ s.cache) :
    x ∈ (createTodo s title f).snd.cache := by
  unfold createTodo
  by_cases h1 : f.dbWrite
  · simpa [h1] using h
  · cases title with
    | none => simpa [h1] using h
    | some t =>
      by_cases h2 : t ∈ s.db
      · simpa [h1, h2] using h
      · by_cases h3 : f.cacheWrite
        · simpa [h1, h2, h3] using h
        · by_cases h4 : f.indexWrite <;>
            simpa [h1, h2, h3, h4] using mem_sAdd_of_mem t h

/-- The create operation never removes an index document, whatever the
  faults or the title. -/
theorem createTodo_index_mono (s : State) (title : Option String)
    (f : CreateFaults) {x : String} (h : x ∈ s.index) :
    x ∈ (createTodo s title f).snd.index := by
  unfold createTodo
  by_cases h1 : f.dbWrite
  · simpa [h1] using h
  · cases title with
    | none => simpa [h1] using h
    | some t =>
      by_cases h2 : t ∈ s.db
      · simpa [h1, h2] using h
      · by_cases h3 : f.cacheWrite
        · simpa [h1, h2, h3] using h
        · by_cases h4 : f.indexWrite <;> simp [h1, h2, h3, h4, h]

/-- The search operation never changes any store. -/
theorem searchTodos_state_eq (matchFn : List String → String → List String)
    (s : State) (txt : String) (fault : Bool) :
    (searchTodos matchFn s txt fault).snd = s := by
  unfold searchTodos
  split <;> rfl

/-- One request, of any kind, never removes a cache member. -/
theorem runOp_cache_mono (s : State) (op : Op) {x : String}
    (h : x ∈ s.cache) : x ∈ (runOp s op).cache := by
  cases op with
  | list f => simpa [runOp] using getTodos_cache_mono s f h
  | create t f => simpa [runOp] using createTodo_cache_mono s t f h
  | search matchFn txt fault => simpa [runOp, searchTodos_state_eq] using h

/-- One request, of any kind, never removes an index document. -/
theorem runOp_index_mono (s : State) (op : Op) {x : String}
    (h : x ∈ s.index) : x ∈ (runOp s op).index := by
  cases op with
  | list f => simpa [runOp, getTodos_index_eq] using h
  | create t f => simpa [runOp] using createTodo_index_mono s t f h
  | search matchFn txt fault => simpa [runOp, searchTodos_state_eq] using h

/-- C8: across every sequence of list, create and search requests, under
  every fault schedule, no cache member and no index document is ever
  removed: the cache title set and the index document collection grow
  monotonically. -/
theorem C8_no_eviction (ops : List Op) (s : State) :
    (∀ x ∈ s.cache, x ∈ (runOps s ops).cache) ∧
    (∀ x ∈ s.index, x ∈ (runOps s ops).index) := by
  induction ops generalizing s with
  | nil => simp [runOps]
  | cons op ops ih =>
    constructor
    · intro x hx
      simpa [runOps] using
        (ih (runOp s op)).1 x (runOp_cache_mono s op hx)
    · intro x hx
      simpa [runOps] using
        (ih (runOp s op)).2 x (runOp_index_mono s op hx)

/-- Witness for C8: a concrete two-request run (a create then a list)
  keeps a pre-existing cache title and index document. -/
theorem C8_witness :
    "a" ∈ (runOps ⟨["x"], ["a"], ["b"]⟩
      [Op.create (Option.some "new") CreateFaults.noFault,
       Op.list ListFaults.noFault]).cache ∧
    "b" ∈ (runOps ⟨["x"], ["a"], ["b"]⟩
      [Op.create (Option.some "new") CreateFaults.noFault,
       Op.list ListFaults.noFault]).index :=
  ⟨(C8_no_eviction
      [Op.create (Option.some "new") CreateFaults.noFault,
       Op.list ListFaults.noFault] ⟨["x"], ["a"], ["b"]⟩).1 "a" (by decide),
   (C8_no_eviction
      [Op.create (Option.some "new") CreateFaults.noFault,
       Op.list ListFaults.noFault] ⟨["x"], ["a"], ["b"]⟩).2 "b" (by decide)⟩

end TodoApi
